import Mathlib

/-!
Shallow embedding of `localserver/main.py` (class `LocalServer`): a minimal
HTTP/1.1 static file server.  Python strings are modelled as `List Char`
(Python compares and slices strings by code point), bytes as `List Nat`,
the filesystem as a partial map from absolute path strings to nodes, and
each `send_*` call as one `HttpResponse` value appended to the list of
responses written on the connection.
-/

/-- Python strings, modelled by their list of code points. -/
abbrev Str : Type := List Char

/-- Whitespace as recognised by Python's `str.strip()` / `str.split()`
(ASCII subset; the requests in question contain only ASCII whitespace). -/
def isPySpace (c : Char) : Bool :=
  c = ' ' || c = '\t' || c = '\n' || c = '\r' || c = '\x0b' || c = '\x0c'

/-- Python `str.strip()` with no argument: drop whitespace from both ends. -/
def pyStrip (l : Str) : Str :=
  ((l.dropWhile isPySpace).reverse.dropWhile isPySpace).reverse

/-- `request.split("\r\n")[0]`: everything before the first CRLF. -/
def firstLineCRLF : Str → Str
  | [] => []
  | c :: rest => if c = '\r' ∧ rest.take 1 = ['\n'] then [] else c :: firstLineCRLF rest

/-- Helper for `pySplitWs`, accumulating the current token reversed. -/
def splitWsAux : Str → Str → List Str
  | [], cur => if cur = [] then [] else [cur.reverse]
  | c :: rest, cur =>
    if isPySpace c then
      if cur = [] then splitWsAux rest [] else cur.reverse :: splitWsAux rest []
    else splitWsAux rest (c :: cur)

/-- Python `str.split()` with no argument: split on whitespace runs,
dropping empty tokens. -/
def pySplitWs (l : Str) : List Str := splitWsAux l []

/-- Helper for `splitSlash`, accumulating the current component reversed. -/
def splitSlashAux : Str → Str → List Str
  | [], cur => [cur.reverse]
  | c :: rest, cur =>
    if c = '/' then cur.reverse :: splitSlashAux rest []
    else splitSlashAux rest (c :: cur)

/-- Python `str.split("/")`: split on every slash, keeping empty parts. -/
def splitSlash (l : Str) : List Str := splitSlashAux l []

/-- Python `str.replace("%20", " ")`: left-to-right, non-overlapping. -/
def replacePct20 : Str → Str
  | '%' :: '2' :: '0' :: rest => ' ' :: replacePct20 rest
  | c :: rest => c :: replacePct20 rest
  | [] => []

/-- Python `str.rstrip("/")`. -/
def pyRstripSlash (l : Str) : Str :=
  (l.reverse.dropWhile (fun c => c = '/')).reverse

/-- Python `str(n)` for a non-negative integer. -/
def natToStr (n : Nat) : Str := Nat.toDigits 10 n

/-- POSIX `os.path.join(a, b)` (two-argument form). -/
def pyJoin (a b : Str) : Str :=
  if b.take 1 = ['/'] then b
  else if a = [] ∨ a.getLast? = some '/' then a ++ b
  else a ++ '/' :: b

/-- POSIX `os.path.normpath`: collapse `//`, `.` and `..` components
purely lexically, mirroring `posixpath.normpath`. -/
def pyNormpath (p : Str) : Str :=
  if p = [] then ['.']
  else
    let i1 : Nat :=
      if p.take 1 = ['/'] then
        if p.take 2 = ['/', '/'] ∧ ¬ p.take 3 = ['/', '/', '/'] then 2 else 1
      else 0
    let comps := splitSlash p
    let newComps := comps.foldl (fun acc comp =>
      if comp = [] ∨ comp = ['.'] then acc
      else if ¬ comp = ['.', '.'] ∨ (i1 = 0 ∧ acc = []) ∨ acc.getLast? = some ['.', '.'] then
        acc ++ [comp]
      else if acc = [] then acc else acc.dropLast) []
    let res := List.replicate i1 '/' ++ List.intercalate ['/'] newComps
    if res = [] then ['.'] else res

/-- POSIX `os.path.abspath(p)` with the given working directory:
`normpath(p)` when `p` is absolute, else `normpath(join(cwd, p))`. -/
def pyAbspath (cwd p : Str) : Str :=
  if p.take 1 = ['/'] then pyNormpath p else pyNormpath (pyJoin cwd p)

/-- The extension part of `os.path.splitext`: the suffix of the basename
from its last dot, provided some earlier character of the basename is not
a dot (so dotfiles such as `.bashrc` have no extension). -/
def splitextExt (p : Str) : Str :=
  let base := (p.reverse.takeWhile (fun c => ¬ c = '/')).reverse
  let rev := base.reverse
  let afterDot := rev.takeWhile (fun c => ¬ c = '.')
  if afterDot.length = rev.length then []
  else
    let pre := rev.drop (afterDot.length + 1)
    if pre.any (fun c => ¬ c = '.') then '.' :: afterDot.reverse else []

/-- UTF-8 encoding of one code point. -/
def utf8Bytes (c : Char) : List Nat :=
  let n := c.toNat
  if n < 0x80 then [n]
  else if n < 0x800 then [0xC0 + n / 64, 0x80 + n % 64]
  else if n < 0x10000 then [0xE0 + n / 4096, 0x80 + (n / 64) % 64, 0x80 + n % 64]
  else [0xF0 + n / 262144, 0x80 + (n / 4096) % 64, 0x80 + (n / 64) % 64, 0x80 + n % 64]

/-- Python `str.encode("utf-8")`. -/
def utf8Enc (l : Str) : List Nat := (l.map utf8Bytes).flatten

/-- Python dict assignment `d[k] = v` on an insertion-ordered dict:
overwrite in place when the key exists, else append. -/
def dictSet (d : List (Str × Str)) (k v : Str) : List (Str × Str) :=
  if d.any (fun kv => kv.1 = k) then
    d.map (fun kv => if kv.1 = k then (k, v) else kv)
  else d ++ [(k, v)]

/-- Genuine filesystem containment: `p` equals the root or lives strictly
below it (this is what "inside the root" means, as opposed to the raw
string-prefix test the code performs). -/
def withinRoot (root p : Str) : Bool :=
  if p = root then true else (root ++ ['/']).isPrefixOf p

/-- One node of the modelled filesystem: a regular file with its byte
contents, or a directory with the names of its immediate children. -/
inductive FSNode where
  | file (contents : List Nat)
  | dir (children : List Str)
deriving DecidableEq

/-- `os.path.isfile`. -/
def isfile (fs : Str → Option FSNode) (p : Str) : Bool :=
  match fs p with
  | some (FSNode.file _) => true
  | _ => false

/-- `os.path.isdir`. -/
def isdir (fs : Str → Option FSNode) (p : Str) : Bool :=
  match fs p with
  | some (FSNode.dir _) => true
  | _ => false

/-- One HTTP response as written on the socket: status line data, the
headers in wire order, and the body bytes. -/
structure HttpResponse where
  version : Str
  status : Nat
  msg : Str
  headers : List (Str × Str)
  body : List Nat
deriving DecidableEq

/-- The server state relevant to request handling: the configured protocol
version, the root (`os.getcwd()`, fixed for the process), the filesystem,
the `mimetypes` table (extension, with dot, to content type) and the value
`formatdate()` returns (external clock). -/
structure LocalServer where
  http_version : Str
  cwd : Str
  fs : Str → Option FSNode
  mimeTable : Str → Option Str
  dateStr : Str

/-- Helper for `chunks8192`: `cap` counts the remaining capacity of the
chunk currently being filled (held reversed in `cur`). -/
def chunksAux : List Nat → Nat → List Nat → List (List Nat)
  | [], _, cur => if cur = [] then [] else [cur.reverse]
  | b :: rest, cap, cur =>
    if cap = 0 then cur.reverse :: chunksAux rest 8191 [b]
    else chunksAux rest (cap - 1) (b :: cur)

/-- The chunked read loop of `send_file_response`: successive
`f.read(8192)` results until end of file. -/
def chunks8192 (l : List Nat) : List (List Nat) := chunksAux l 8192 []

/-- Render `num / den` (an exact rational; the Python float holds it
exactly for the sizes in question) with one decimal place, rounding half
to even, as `f"{x:.1f}"` does. -/
def formatOneDecimal (num den : Nat) : Str :=
  let scaled := num * 10
  let q := scaled / den
  let r := scaled % den
  let q2 := if 2 * r > den ∨ (2 * r = den ∧ q % 2 = 1) then q + 1 else q
  natToStr (q2 / 10) ++ '.' :: natToStr (q2 % 10)

/-- `LocalServer.format_file_size`: the `while size_bytes >= 1024 and
i < 3` loop divides by `1024.0` exactly `i` times where `i` is determined
by the thresholds below (each float division is exact for sizes under
`2 ** 53`), then formats with one decimal and appends the unit. -/
def format_file_size (size : Nat) : Str :=
  if size = 0 then "0 B".data
  else if 1024 ^ 3 ≤ size then formatOneDecimal size (1024 ^ 3) ++ " GB".data
  else if 1024 ^ 2 ≤ size then formatOneDecimal size (1024 ^ 2) ++ " MB".data
  else if 1024 ≤ size then formatOneDecimal size 1024 ++ " KB".data
  else formatOneDecimal size 1 ++ " B".data

/-! The HTML templates of `send_error_response` and
`handle_directory_listing`, transcribed from the Python f-strings (literal
`\x7b\x7b` / `\x7d\x7d` pairs of the f-strings collapse to single braces,
written here as escapes; the trailing-backslash line continuations of the
SVG data URL join those lines, keeping their leading spaces). -/

/-- `send_error_response`: template up to the `<title>` interpolation. -/
def errHtmlA : Str := ("
            <html>
            <head>
                <title>").data

/-- `send_error_response`: template between the `<title>` and `<h1>`
interpolations. -/
def errHtmlB : Str := ("</title>
                <style>
                    body \x7b
                        background: radial-gradient(circle at center, #0f0f1a, #050510);
                        color: #f0f0ff;
                        font-family: \x27Orbitron\x27, sans-serif;
                        display: flex;
                        flex-direction: column;
                        justify-content: center;
                        align-items: center;
                        height: 100vh;
                        margin: 0;
                        overflow: hidden;
                    \x7d
                    h1 \x7b
                        font-size: 4rem;
                        color: #ff00ff;
                        text-shadow: 0 0 10px #ff00ff, 0 0 30px #ff00ff, 0 0 60px #ff00ff;
                        animation: flicker 3s infinite;
                    \x7d
                    p \x7b
                        font-size: 1.2rem;
                        color: #00ffff;
                        text-shadow: 0 0 10px #00ffff;
                    \x7d
                    a \x7b
                        color: #00ffcc;
                        text-decoration: none;
                        border: 1px solid #00ffcc;
                        padding: 10px 20px;
                        margin-top: 20px;
                        border-radius: 10px;
                        transition: 0.3s;
                        box-shadow: 0 0 10px #00ffcc;
                    \x7d
                    a:hover \x7b
                        background: #00ffcc;
                        color: #0b0b17;
                        box-shadow: 0 0 20px #00ffcc, 0 0 40px #00ffcc;
                    \x7d
                    @keyframes flicker \x7b
                        0%, 19%, 21%, 23%, 25%, 54%, 56%, 100% \x7b opacity: 1; \x7d
                        20%, 24%, 55% \x7b opacity: 0.6; \x7d
                    \x7d
                    @keyframes moveStars \x7b
                        from \x7b background-position: 0 0; \x7d
                        to \x7b background-position: 10000px 10000px; \x7d
                    \x7d
                    body::after \x7b
                        content: \"\";
                        position: fixed;
                        top: 0; left: 0;
                        width: 200%;
                        height: 200%;
                        background: transparent url(\"data:image/svg+xml,                        <svg xmlns=\x27http://www.w3.org/2000/svg\x27 width=\x273\x27 height=\x273\x27>                        <circle cx=\x271\x27 cy=\x271\x27 r=\x271\x27 fill=\x27white\x27 opacity=\x270.15\x27/>                        </svg>\") repeat;
                        background-size: 3px 3px;
                        animation: moveStars 300s linear infinite;
                        opacity: 0.1;
                        z-index: -2;
                    \x7d
                </style>
            </head>
            <body>
                <h1>").data

/-- `send_error_response`: template after the `<h1>` interpolation. -/
def errHtmlC : Str := ("</h1>
                <p>Oops! Something broke the neon grid...</p>
                <a href=\"/\">Return to Home</a>
            </body>
            </html>
            ").data

/-- The body built by `send_error_response` before it is passed on to
`send_response`: the template with `{status_code} {message}` interpolated
in the title and the heading. -/
def errorContent (status_code : Nat) (message : Str) : Str :=
  errHtmlA ++ natToStr status_code ++ ' ' :: message
    ++ errHtmlB ++ natToStr status_code ++ ' ' :: message ++ errHtmlC

/-- `handle_directory_listing`: template up to `Index of` in the title. -/
def dirHtmlA : Str := ("
            <html>
            <head>
                <title>Index of ").data

/-- `handle_directory_listing`: template between the two `{request_path}`
interpolations. -/
def dirHtmlB : Str := ("</title>
                <style>
                    body \x7b
                        background: linear-gradient(135deg, #0d0221, #1b0033, #050510);
                        font-family: \x27Orbitron\x27, sans-serif;
                        margin: 0;
                        padding: 40px;
                        color: #f5e1ff;
                        overflow-x: hidden;
                    \x7d
                    h1 \x7b
                        color: #ff00ff;
                        text-shadow: 0 0 10px #ff00ff, 0 0 30px #ff00ff;
                        font-size: 2.5rem;
                        animation: flicker 4s infinite;
                    \x7d
                    ul \x7b
                        list-style-type: none;
                        padding: 0;
                    \x7d
                    li \x7b
                        margin: 10px 0;
                    \x7d
                    a \x7b
                        color: #00ffff;
                        text-decoration: none;
                        font-size: 1.1rem;
                        text-shadow: 0 0 5px #00ffff, 0 0 10px #00ffff;
                        transition: 0.3s;
                    \x7d
                    a:hover \x7b
                        color: #ff00ff;
                        text-shadow: 0 0 15px #ff00ff, 0 0 40px #ff00ff;
                        transform: scale(1.1);
                    \x7d
                    .container \x7b
                        background: rgba(20, 20, 40, 0.6);
                        border: 2px solid transparent;
                        border-radius: 15px;
                        padding: 30px;
                        box-shadow: 0 0 20px #ff00ff55, 0 0 40px #00ffff22 inset;
                        border-image: linear-gradient(45deg, #ff00ff, #00ffff, #ff00ff) 1;
                        animation: borderShift 5s linear infinite;
                    \x7d
                    .footer \x7b
                        margin-top: 40px;
                        color: #888;
                        font-size: 0.9rem;
                        text-align: center;
                    \x7d
                    @keyframes flicker \x7b
                        0%, 18%, 22%, 25%, 53%, 57%, 100% \x7b opacity: 1; \x7d
                        20%, 24%, 55% \x7b opacity: 0.6; \x7d
                    \x7d
                    @keyframes borderShift \x7b
                        0% \x7b border-image: linear-gradient(45deg, #ff00ff, #00ffff, #ff00ff) 1; \x7d
                        50% \x7b border-image: linear-gradient(45deg, #00ffff, #ff00ff, #00ffff) 1; \x7d
                        100% \x7b border-image: linear-gradient(45deg, #ff00ff, #00ffff, #ff00ff) 1; \x7d
                    \x7d
                    @keyframes gridMove \x7b
                        from \x7b background-position: 0 0, 0 0; \x7d
                        to \x7b background-position: 100px 100px, 100px 100px; \x7d
                    \x7d
                    body::before \x7b
                        content: \"\";
                        position: fixed;
                        top: 0; left: 0;
                        width: 100%; height: 100%;
                        background:
                            linear-gradient(90deg, rgba(255, 0, 255, 0.05) 1px, transparent 1px),
                            linear-gradient(0deg, rgba(0, 255, 255, 0.05) 1px, transparent 1px);
                        background-size: 40px 40px;
                        animation: gridMove 20s linear infinite;
                        z-index: -1;
                    \x7d
                </style>
            </head>
            <body>
                <div class=\"container\">
                    <h1 id=\"title\">📂 Index of ").data

/-- `handle_directory_listing`: template after the heading interpolation,
up to the end of the opening f-string. -/
def dirHtmlC : Str := ("</h1>
                    <ul>
            ").data

/-- `handle_directory_listing`: the closing plain (non-f) string appended
after the entries; its doubled braces are literal there. -/
def dirHtmlD : Str := ("
                    </ul>
                    <div class=\"footer\">🌐 2049</div>
                </div>
                <script>
                let text = document.getElementById(\"title\").innerText;
                let el = document.getElementById(\"title\");
                el.innerText = \"\";
                let i = 0;
                function type() \x7b
                    if (i < text.length) \x7b\x7b
                        el.innerHTML = text.slice(0, i + 1) + \"_\";
                        i++;
                        setTimeout(type, 80);
                    \x7d\x7d else \x7b\x7b
                        el.innerHTML = text;
                    \x7d\x7d
                \x7d
                type();
                </script>
            </body>
            </html>
            ").data

/-- `"/".join(request_path.rstrip("/").split("/")[:-1]) or "/"`. -/
def parentPathOf (request_path : Str) : Str :=
  let j := List.intercalate ['/'] ((splitSlash (pyRstripSlash request_path)).dropLast)
  if j = [] then "/".data else j

/-- The parent-directory entry appended when `request_path != "/"`. -/
def parentLi (request_path : Str) : Str :=
  ("<li>⬆️ <a href=\"").data ++ parentPathOf request_path
    ++ ("\">Parent Directory</a></li>").data

/-- `item_url = request_path.rstrip("/") + "/" + item`. -/
def entryUrl (request_path item : Str) : Str :=
  pyRstripSlash request_path ++ '/' :: item

/-- One iteration of the `for item in files_and_dirs` loop: the `<li>`
fragment appended for `item` (directory, sized file, or the `OSError`
fallback when `os.path.getsize` fails because no such node exists). -/
def entryLi (fs : Str → Option FSNode) (dir_path request_path item : Str) : Str :=
  let item_url := entryUrl request_path item
  let item_path := pyJoin dir_path item
  if isdir fs item_path then
    ("<li>📁 <a href=\"").data ++ item_url ++ ("/\">").data ++ item ++ ("/</a></li>").data
  else
    match fs item_path with
    | some (FSNode.file contents) =>
        ("<li>📄 <a href=\"").data ++ item_url ++ ("\">").data ++ item
          ++ ("</a> — <span style=\"color:#aaa;\">").data
          ++ format_file_size contents.length ++ ("</span></li>").data
    | _ =>
        ("<li>📄 <a href=\"").data ++ item_url ++ ("\">").data ++ item ++ ("</a></li>").data

/-- `files_and_dirs.sort()`: Python sorts strings ascending by code
point; modelled by insertion sort under the lexicographic order (list
sorting is unique up to equal elements, and equal strings are identical,
so any correct sort yields this result). -/
def pySort (l : List Str) : List Str := List.insertionSort (fun a b => a ≤ b) l

/-- `send_response`: add `Content-Length` (of the UTF-8 encoded content)
and `Connection: close` to the headers, then write status line, headers
and body.  Modelled as the single response it writes. -/
def LocalServer.send_response (S : LocalServer) (response_headers : List (Str × Str))
    (status_code : Nat) (msg : Str) (content : Str) : HttpResponse :=
  let content_bytes := utf8Enc content
  let headers := dictSet response_headers ("Content-Length").data (natToStr content_bytes.length)
  let headers := dictSet headers ("Connection").data ("close").data
  { version := S.http_version, status := status_code, msg := msg
    headers := headers, body := content_bytes }

/-- `send_error_response`: an HTML error page via `send_response`. -/
def LocalServer.send_error_response (S : LocalServer) (status_code : Nat)
    (message : Str) : HttpResponse :=
  S.send_response [(("Content-Type").data, ("text/html;charset=utf-8").data)]
    status_code message (errorContent status_code message)

/-- `send_headers_only`: status line and the given headers, no body. -/
def LocalServer.send_headers_only (S : LocalServer) (response_headers : List (Str × Str))
    (status_code : Nat) (msg : Str) : HttpResponse :=
  { version := S.http_version, status := status_code, msg := msg
    headers := response_headers, body := [] }

/-- `send_file_response`: open the file, send headers with its size and
guessed type, then stream it in 8192-byte chunks.  When `open` raises
(no regular file at the path), the `except` branch sends a 500 instead. -/
def LocalServer.send_file_response (S : LocalServer) (file_path : Str) : List HttpResponse :=
  match S.fs file_path with
  | some (FSNode.file contents) =>
      let mime := (S.mimeTable (splitextExt file_path)).getD ("application/octet-stream").data
      [{ version := S.http_version, status := 200, msg := ("OK").data
         headers := [(("Content-Type").data, mime),
                     (("Content-Length").data, natToStr contents.length),
                     (("Connection").data, ("close").data)]
         body := (chunks8192 contents).flatten }]
  | _ => [S.send_error_response 500 ("Internal Server Error").data]

/-- `handle_head_request`: the `isfile` / `isdir` / else branches
(`PermissionError` cannot arise in the permissionless filesystem model). -/
def LocalServer.handle_head_request (S : LocalServer) (abs_path : Str) : List HttpResponse :=
  match S.fs abs_path with
  | some (FSNode.file contents) =>
      let mime := (S.mimeTable (splitextExt abs_path)).getD ("application/octet-stream").data
      [S.send_headers_only
        [(("Date").data, S.dateStr),
         (("Content-Length").data, natToStr contents.length),
         (("Content-Type").data, mime),
         (("Connection").data, ("close").data)] 200 ("OK").data]
  | some (FSNode.dir _) =>
      let mime := (S.mimeTable (splitextExt abs_path)).getD ("application/octet-stream").data
      [S.send_headers_only
        [(("Date").data, S.dateStr),
         (("Content-Type").data, mime),
         (("Content-Length").data, natToStr 0),
         (("Connection").data, ("close").data)] 200 ("OK").data]
  | none =>
      [S.send_headers_only
        [(("Date").data, S.dateStr),
         (("Content-Length").data, natToStr 0),
         (("Content-Type").data, ("text/html;charset=utf-8").data),
         (("Connection").data, ("close").data)] 404 ("Not Found").data]

/-- The listing body `handle_directory_listing` builds: opening template
with the request path interpolated twice, a parent-directory entry unless
the request path is `/`, one entry per (sorted) child, and the closing
template. -/
def listingContent (fs : Str → Option FSNode) (dir_path request_path : Str)
    (sortedItems : List Str) : Str :=
  let content := dirHtmlA ++ request_path ++ dirHtmlB ++ request_path ++ dirHtmlC
  let content := if ¬ request_path = ("/").data then content ++ parentLi request_path else content
  let content := sortedItems.foldl (fun acc item => acc ++ entryLi fs dir_path request_path item) content
  content ++ dirHtmlD

/-- `handle_directory_listing`: `os.listdir` + sort + render + 200, via
`send_response`.  When `os.listdir` raises (the path is no directory),
the generic `except` branch answers 500 (`PermissionError`, which would
give 403, cannot arise in the permissionless model). -/
def LocalServer.handle_directory_listing (S : LocalServer) (dir_path : Str)
    (request_path : Str) : List HttpResponse :=
  match S.fs dir_path with
  | some (FSNode.dir children) =>
      [S.send_response [(("Content-Type").data, ("text/html;charset=utf-8").data)]
        200 ("OK").data (listingContent S.fs dir_path request_path (pySort children))]
  | _ => [S.send_error_response 500 ("Internal Server Error").data]

/-- `handle_get_request`: `/favicon.ico` is always refused with 404, then
directory listing, file streaming, or 404. -/
def LocalServer.handle_get_request (S : LocalServer) (request_path abs_path : Str) :
    List HttpResponse :=
  if request_path = ("/favicon.ico").data then [S.send_error_response 404 ("Not Found").data]
  else if isdir S.fs abs_path then S.handle_directory_listing abs_path request_path
  else if isfile S.fs abs_path then S.send_file_response abs_path
  else [S.send_error_response 404 ("Not Found").data]

/-- Lines 300–303 of `handle_request`: decode `%20`, strip leading
slashes, join to the working directory and canonicalize. -/
def LocalServer.resolvedPath (S : LocalServer) (request_path : Str) : Str :=
  pyAbspath S.cwd (pyJoin S.cwd ((replacePct20 request_path).dropWhile (fun c => c = '/')))

/-- `handle_request`: resolve the path, reject it with 403 unless the
resolved string starts with the working directory, then dispatch on the
method (any other method falls through without a response; the caller
never passes one). -/
def LocalServer.handle_request (S : LocalServer) (request_path method : Str) :
    List HttpResponse :=
  let rp := replacePct20 request_path
  let abs_path := S.resolvedPath request_path
  if (S.cwd.isPrefixOf abs_path) = false then [S.send_error_response 403 ("Forbidden").data]
  else if method = ("HEAD").data then S.handle_head_request abs_path
  else if method = ("GET").data then S.handle_get_request rp abs_path
  else []

/-- The per-connection body of `accept_connections` (lines 492–528): the
responses written on one accepted connection that delivered `request`,
before the socket is closed.  The `if not request_lines` branch of the
source is unreachable (`str.split` never returns an empty list) and the
`len(request_parts) != 3` test plus tuple unpacking is rendered as one
match. -/
def LocalServer.acceptOne (S : LocalServer) (request : Str) : List HttpResponse :=
  if pyStrip request = [] then [S.send_error_response 400 ("Empty Request Received").data]
  else
    let request_line := pyStrip (firstLineCRLF request)
    if request_line = [] then []
    else
      match pySplitWs request_line with
      | [method, path, _http_version] =>
          if ¬ (method = ("HEAD").data ∨ method = ("GET").data) then
            [S.send_error_response 501 ("Method Not Allowed").data]
          else S.handle_request path method
      | _ => [S.send_error_response 400 ("Bad Request").data]

/-- A concrete filesystem: the served root `/root` with a text file, an
empty subdirectory and a `favicon.ico` file, next to a sibling directory
`/rootx` that lies outside the root yet shares it as a string prefix. -/
def demoFs : Str → Option FSNode := fun p =>
  if p = ("/root").data then
    some (FSNode.dir [("a.txt").data, ("b").data, ("favicon.ico").data])
  else if p = ("/root/a.txt").data then some (FSNode.file [104, 105])
  else if p = ("/root/b").data then some (FSNode.dir [])
  else if p = ("/root/favicon.ico").data then some (FSNode.file [7, 8, 9])
  else if p = ("/rootx/secret.txt").data then some (FSNode.file [115, 101, 99])
  else none

/-- A concrete server over `demoFs`, used to instantiate the theorems. -/
def demoServer : LocalServer :=
  { http_version := ("HTTP/1.1").data
    cwd := ("/root").data
    fs := demoFs
    mimeTable := fun ext => if ext = (".txt").data then some ("text/plain").data else none
    dateStr := ("Sun, 12 Oct 2025 00:00:00 GMT").data }

/-! Helper lemmas. -/

theorem chunksAux_flatten (l : List Nat) : ∀ (cap : Nat) (cur : List Nat),
    (chunksAux l cap cur).flatten = cur.reverse ++ l := by
  induction l with
  | nil =>
    intro cap cur
    by_cases h : cur = [] <;> simp [chunksAux, h]
  | cons b rest ih =>
    intro cap cur
    by_cases h : cap = 0 <;> simp [chunksAux, h, ih]

/-- The chunk loop of `send_file_response` writes exactly the file's
bytes. -/
theorem chunks8192_flatten (l : List Nat) : (chunks8192 l).flatten = l := by
  simp [chunks8192, chunksAux_flatten]

theorem isPrefixOf_self : ∀ (l : Str), l.isPrefixOf l = true
  | [] => rfl
  | c :: rest => by simp [List.isPrefixOf, isPrefixOf_self rest]

theorem isPrefixOf_of_append : ∀ {a b c : Str},
    (a ++ b).isPrefixOf c = true → a.isPrefixOf c = true := by
  intro a
  induction a with
  | nil =>
    intro b c _
    cases c <;> simp [List.isPrefixOf]
  | cons x xs ih =>
    intro b c h
    cases c with
    | nil => simp [List.isPrefixOf] at h
    | cons y ys =>
      simp only [List.cons_append, List.isPrefixOf, Bool.and_eq_true] at h ⊢
      exact ⟨h.1, ih h.2⟩

/-- Real containment implies the string-prefix test the code performs. -/
theorem withinRoot_isPrefixOf {root p : Str} (h : withinRoot root p = true) :
    root.isPrefixOf p = true := by
  unfold withinRoot at h
  by_cases hp : p = root
  · subst hp
    exact isPrefixOf_self p
  · rw [if_neg hp] at h
    exact isPrefixOf_of_append h

theorem allWs_pyStrip {l : Str} (h : ∀ c ∈ l, isPySpace c = true) : pyStrip l = [] := by
  unfold pyStrip
  have h1 : l.dropWhile isPySpace = [] := List.dropWhile_eq_nil_iff.mpr h
  simp [h1]

theorem pyStrip_eq_nil_allWs {l : Str} (h : pyStrip l = []) :
    ∀ c ∈ l, isPySpace c = true := by
  unfold pyStrip at h
  rw [List.reverse_eq_nil_iff, List.dropWhile_eq_nil_iff] at h
  intro c hc
  have hsplit : l.takeWhile isPySpace ++ l.dropWhile isPySpace = l :=
    List.takeWhile_append_dropWhile isPySpace l
  rw [← hsplit] at hc
  rcases List.mem_append.mp hc with h1 | h2
  · exact List.mem_takeWhile_imp h1
  · exact h c (List.mem_reverse.mpr h2)

theorem mem_firstLineCRLF {c : Char} : ∀ {l : Str}, c ∈ firstLineCRLF l → c ∈ l := by
  intro l
  induction l with
  | nil => simp [firstLineCRLF]
  | cons c' rest ih =>
    intro h
    rw [firstLineCRLF] at h
    by_cases hc : c' = '\r' ∧ rest.take 1 = ['\n']
    · rw [if_pos hc] at h
      simp at h
    · rw [if_neg hc] at h
      rcases List.mem_cons.mp h with h1 | h2
      · exact h1 ▸ List.mem_cons_self c' rest
      · exact List.mem_cons_of_mem c' (ih h2)

theorem firstLine_strip_ne {req : Str} (h : ¬ pyStrip (firstLineCRLF req) = []) :
    ¬ pyStrip req = [] := by
  intro h0
  apply h
  apply allWs_pyStrip
  intro c hc
  exact pyStrip_eq_nil_allWs h0 c (mem_firstLineCRLF hc)

theorem foldl_append_map {α β : Type} (f : α → List β) :
    ∀ (items : List α) (base : List β),
      items.foldl (fun acc x => acc ++ f x) base = base ++ (items.map f).flatten := by
  intro items
  induction items with
  | nil => simp
  | cons x xs ih =>
    intro base
    simp [ih, List.append_assoc]

theorem handle_head_request_length (S : LocalServer) (p : Str) :
    (S.handle_head_request p).length = 1 := by
  unfold LocalServer.handle_head_request
  split <;> simp

theorem send_file_response_length (S : LocalServer) (p : Str) :
    (S.send_file_response p).length = 1 := by
  unfold LocalServer.send_file_response
  split <;> simp

theorem handle_directory_listing_length (S : LocalServer) (d rp : Str) :
    (S.handle_directory_listing d rp).length = 1 := by
  unfold LocalServer.handle_directory_listing
  split <;> simp

theorem handle_get_request_length (S : LocalServer) (rp abs_path : Str) :
    (S.handle_get_request rp abs_path).length = 1 := by
  unfold LocalServer.handle_get_request
  split_ifs <;>
    simp [handle_directory_listing_length, send_file_response_length]

/-- For the two dispatched methods, `handle_request` always writes
exactly one response. -/
theorem handle_request_length (S : LocalServer) (p m : Str)
    (h : m = ("HEAD").data ∨ m = ("GET").data) :
    (S.handle_request p m).length = 1 := by
  unfold LocalServer.handle_request
  by_cases h1 : List.isPrefixOf S.cwd (S.resolvedPath p) = false
  · simp [h1]
  · by_cases h2 : m = ("HEAD").data
    · simp [h1, h2, handle_head_request_length]
    · by_cases h3 : m = ("GET").data
      · simp [h1, h2, h3, handle_get_request_length]
      · rcases h with h | h
        · exact absurd h h2
        · exact absurd h h3

/-- C1 (amended): every request whose canonicalized resolution fails the
string-prefix containment test against the root is answered with exactly
the 403 Forbidden error response — never 200 and never a file body.  (The
original claim, quantified over every resolution lying outside the root,
is refuted by `c1_counterexample`: the raw prefix test admits sibling
paths such as `/rootx/…` under root `/root`.) -/
theorem c1_prefix_failure_forbidden (S : LocalServer) (p m : Str)
    (h : List.isPrefixOf S.cwd (S.resolvedPath p) = false) :
    S.handle_request p m = [S.send_error_response 403 ("Forbidden").data]
    ∧ ∀ r ∈ S.handle_request p m, r.status = 403 := by
  have h1 : S.handle_request p m = [S.send_error_response 403 ("Forbidden").data] := by
    unfold LocalServer.handle_request
    simp [h]
  refine ⟨h1, ?_⟩
  intro r hr
  rw [h1] at hr
  have h2 := List.mem_singleton.mp hr
  subst h2
  rfl

/-- C1 counterexample: `GET /../rootx/secret.txt` against root `/root`
resolves to `/rootx/secret.txt` — a location outside the root — yet the
server answers 200 with the file's bytes, because `/rootx/secret.txt`
starts with the string `/root`. -/
theorem c1_counterexample :
    withinRoot demoServer.cwd (demoServer.resolvedPath ("/../rootx/secret.txt").data) = false
    ∧ demoServer.fs (demoServer.resolvedPath ("/../rootx/secret.txt").data)
        = some (FSNode.file [115, 101, 99])
    ∧ (demoServer.handle_request ("/../rootx/secret.txt").data ("GET").data).map
        (fun r => (r.status, r.body)) = [(200, [115, 101, 99])] :=
  ⟨by decide, by decide, by decide⟩

/-- C1 witness: `GET /..` against root `/root` resolves to `/`, fails the
prefix test, and is answered 403. -/
theorem c1_witness :
    demoServer.handle_request ("/..").data ("GET").data
        = [demoServer.send_error_response 403 ("Forbidden").data]
    ∧ ∀ r ∈ demoServer.handle_request ("/..").data ("GET").data, r.status = 403 :=
  c1_prefix_failure_forbidden demoServer (("/..").data) (("GET").data) (by decide)

/-- C2 (amended): a request that is entirely whitespace is answered with
400 `Empty Request Received`; a request whose first line is non-empty
after stripping but does not split into exactly three tokens is answered
with 400 `Bad Request`; but a request whose first line strips to empty
while the request holds other content is closed with no response at all. -/
theorem c2_bad_request_line (S : LocalServer) (req : Str) :
    (pyStrip req = [] →
      S.acceptOne req = [S.send_error_response 400 ("Empty Request Received").data])
    ∧ (¬ pyStrip req = [] → pyStrip (firstLineCRLF req) = [] → S.acceptOne req = [])
    ∧ (¬ pyStrip (firstLineCRLF req) = [] →
        ¬ (pySplitWs (pyStrip (firstLineCRLF req))).length = 3 →
        S.acceptOne req = [S.send_error_response 400 ("Bad Request").data]) := by
  refine ⟨?_, ?_, ?_⟩
  · intro h
    unfold LocalServer.acceptOne
    simp [h]
  · intro h1 h2
    unfold LocalServer.acceptOne
    simp [h1, h2]
  · intro h2 h3
    have h1 : ¬ pyStrip req = [] := firstLine_strip_ne h2
    unfold LocalServer.acceptOne
    rcases htok : pySplitWs (pyStrip (firstLineCRLF req)) with _ | ⟨a, _ | ⟨b, _ | ⟨c, _ | ⟨d, t⟩⟩⟩⟩
    · simp [h1, h2, htok]
    · simp [h1, h2, htok]
    · simp [h1, h2, htok]
    · rw [htok] at h3
      simp at h3
    · simp [h1, h2, htok]

/-- C2 counterexample: the request `"\r\nGET / HTTP/1.1"` has an empty
first line, yet no 400 (and no response at all) is sent — refuting the
claim that an empty first line always yields 400. -/
theorem c2_counterexample :
    pyStrip (firstLineCRLF (("\r\nGET / HTTP/1.1").data)) = []
    ∧ ¬ pyStrip (("\r\nGET / HTTP/1.1").data) = []
    ∧ demoServer.acceptOne (("\r\nGET / HTTP/1.1").data) = [] :=
  ⟨by decide, by decide, by decide⟩

/-- C2 witness: the two-token request line `GET /` earns 400 Bad Request. -/
theorem c2_witness :
    demoServer.acceptOne (("GET /").data)
      = [demoServer.send_error_response 400 ("Bad Request").data] :=
  (c2_bad_request_line demoServer (("GET /").data)).2.2 (by decide) (by decide)

/-- C3: a well-formed request line whose method is neither GET nor HEAD
is answered with exactly one response, the 501 error (whose status lies
in the 4xx/5xx range) — never silently ignored. -/
theorem c3_unsupported_method_rejected (S : LocalServer) (req m p v : Str)
    (htok : pySplitWs (pyStrip (firstLineCRLF req)) = [m, p, v])
    (hm : ¬ (m = ("HEAD").data ∨ m = ("GET").data)) :
    S.acceptOne req = [S.send_error_response 501 ("Method Not Allowed").data]
    ∧ ∀ r ∈ S.acceptOne req, 400 ≤ r.status ∧ r.status ≤ 599 := by
  have h2 : ¬ pyStrip (firstLineCRLF req) = [] := by
    intro h0
    rw [h0] at htok
    simp [pySplitWs, splitWsAux] at htok
  have h1 : ¬ pyStrip req = [] := firstLine_strip_ne h2
  have hmain : S.acceptOne req = [S.send_error_response 501 ("Method Not Allowed").data] := by
    unfold LocalServer.acceptOne
    simp [h1, h2, htok, hm]
  refine ⟨hmain, ?_⟩
  intro r hr
  rw [hmain] at hr
  have h3 := List.mem_singleton.mp hr
  subst h3
  have hs : (S.send_error_response 501 ("Method Not Allowed").data).status = 501 := rfl
  rw [hs]
  exact ⟨by decide, by decide⟩

/-- C3 witness: `DELETE / HTTP/1.1` is answered with the 501 error. -/
theorem c3_witness :
    demoServer.acceptOne (("DELETE / HTTP/1.1").data)
        = [demoServer.send_error_response 501 ("Method Not Allowed").data]
    ∧ ∀ r ∈ demoServer.acceptOne (("DELETE / HTTP/1.1").data),
        400 ≤ r.status ∧ r.status ≤ 599 :=
  c3_unsupported_method_rejected demoServer (("DELETE / HTTP/1.1").data)
    (("DELETE").data) (("/").data) (("HTTP/1.1").data) (by decide) (by decide)

/-- C9 (amended): at most one response is written per accepted
connection, and exactly one except in the single silent case: a request
that is not all whitespace but whose first line strips to empty, where
the connection is closed with zero responses.  (The original "exactly
one, never zero" is refuted by `c9_counterexample`.) -/
theorem c9_at_most_one_response (S : LocalServer) (req : Str) :
    (S.acceptOne req).length ≤ 1
    ∧ (S.acceptOne req = [] ↔ (¬ pyStrip req = [] ∧ pyStrip (firstLineCRLF req) = [])) := by
  by_cases h1 : pyStrip req = []
  · have hred : S.acceptOne req
        = [S.send_error_response 400 ("Empty Request Received").data] := by
      unfold LocalServer.acceptOne
      simp [h1]
    rw [hred]
    simp [h1]
  · by_cases h2 : pyStrip (firstLineCRLF req) = []
    · have hred : S.acceptOne req = [] := by
        unfold LocalServer.acceptOne
        simp [h1, h2]
      rw [hred]
      simp [h1, h2]
    · rcases htok : pySplitWs (pyStrip (firstLineCRLF req)) with _ | ⟨a, _ | ⟨b, _ | ⟨c, _ | ⟨d, t⟩⟩⟩⟩
      · have hred : S.acceptOne req = [S.send_error_response 400 ("Bad Request").data] := by
          unfold LocalServer.acceptOne
          simp [h1, h2, htok]
        rw [hred]
        simp [h2]
      · have hred : S.acceptOne req = [S.send_error_response 400 ("Bad Request").data] := by
          unfold LocalServer.acceptOne
          simp [h1, h2, htok]
        rw [hred]
        simp [h2]
      · have hred : S.acceptOne req = [S.send_error_response 400 ("Bad Request").data] := by
          unfold LocalServer.acceptOne
          simp [h1, h2, htok]
        rw [hred]
        simp [h2]
      · by_cases hm : ¬ (a = ("HEAD").data ∨ a = ("GET").data)
        · have hred : S.acceptOne req
              = [S.send_error_response 501 ("Method Not Allowed").data] := by
            unfold LocalServer.acceptOne
            simp [h1, h2, htok, hm]
          rw [hred]
          simp [h2]
        · have ho : a = ("HEAD").data ∨ a = ("GET").data := not_not.mp hm
          have hred : S.acceptOne req = S.handle_request b a := by
            unfold LocalServer.acceptOne
            simp [h1, h2, htok, hm]
          have hl := handle_request_length S b a ho
          rw [hred]
          constructor
          · rw [hl]
          · constructor
            · intro he
              rw [he] at hl
              simp at hl
            · rintro ⟨_, hh⟩
              exact absurd hh h2
      · have hred : S.acceptOne req = [S.send_error_response 400 ("Bad Request").data] := by
          unfold LocalServer.acceptOne
          simp [h1, h2, htok]
        rw [hred]
        simp [h2]

/-- C9 counterexample: the connection delivering `"\r\nHEAD / HTTP/1.1"`
(non-empty bytes, empty first line) is closed after zero responses. -/
theorem c9_counterexample :
    ¬ pyStrip (("\r\nHEAD / HTTP/1.1").data) = []
    ∧ demoServer.acceptOne (("\r\nHEAD / HTTP/1.1").data) = [] :=
  ⟨by decide, by decide⟩

/-- C9 witness: the amended bound instantiated on a well-formed request. -/
theorem c9_witness :
    (demoServer.acceptOne (("GET / HTTP/1.1").data)).length ≤ 1 :=
  (c9_at_most_one_response demoServer (("GET / HTTP/1.1").data)).1

/-- C4 (amended): every GET request on an existing regular file inside
the root whose decoded path is not `/favicon.ico` is answered 200 with a
body byte-for-byte identical to the file's contents and a Content-Type
obtained from the extension table, falling back to
`application/octet-stream`.  (The unamended claim fails at
`/favicon.ico`, which is special-cased to 404 even when the file exists:
`c4_counterexample`.) -/
theorem c4_get_file_ok (S : LocalServer) (p : Str) (contents : List Nat)
    (hfav : ¬ replacePct20 p = ("/favicon.ico").data)
    (hfile : S.fs (S.resolvedPath p) = some (FSNode.file contents))
    (hin : withinRoot S.cwd (S.resolvedPath p) = true) :
    S.handle_request p ("GET").data =
      [{ version := S.http_version, status := 200, msg := ("OK").data
         headers := [(("Content-Type").data,
                       (S.mimeTable (splitextExt (S.resolvedPath p))).getD
                         ("application/octet-stream").data),
                     (("Content-Length").data, natToStr contents.length),
                     (("Connection").data, ("close").data)]
         body := contents }] := by
  have hpre := withinRoot_isPrefixOf hin
  have hmeth : ¬ (("GET").data = ("HEAD").data) := by decide
  unfold LocalServer.handle_request LocalServer.handle_get_request
    LocalServer.send_file_response
  simp [hpre, hmeth, hfav, isdir, isfile, hfile, chunks8192_flatten]

/-- C4 counterexample: `GET /favicon.ico` returns 404 although
`favicon.ico` is an existing regular file inside the root. -/
theorem c4_counterexample :
    demoServer.fs (demoServer.resolvedPath ("/favicon.ico").data)
        = some (FSNode.file [7, 8, 9])
    ∧ withinRoot demoServer.cwd (demoServer.resolvedPath ("/favicon.ico").data) = true
    ∧ (demoServer.handle_request ("/favicon.ico").data ("GET").data).map
        (fun r => r.status) = [404] :=
  ⟨by decide, by decide, by decide⟩

/-- C4 witness: `GET /a.txt` serves the two bytes of the file with
Content-Type `text/plain`. -/
theorem c4_witness :
    demoServer.handle_request ("/a.txt").data ("GET").data =
      [{ version := ("HTTP/1.1").data, status := 200, msg := ("OK").data
         headers := [(("Content-Type").data, ("text/plain").data),
                     (("Content-Length").data, ("2").data),
                     (("Connection").data, ("close").data)]
         body := [104, 105] }] :=
  c4_get_file_ok demoServer (("/a.txt").data) [104, 105] (by decide) (by decide) (by decide)

/-- C5: every HEAD request on an existing regular file inside the root is
answered 200 with Content-Length equal to the file's byte count and an
empty body. -/
theorem c5_head_file_ok (S : LocalServer) (p : Str) (contents : List Nat)
    (hfile : S.fs (S.resolvedPath p) = some (FSNode.file contents))
    (hin : withinRoot S.cwd (S.resolvedPath p) = true) :
    S.handle_request p ("HEAD").data =
      [{ version := S.http_version, status := 200, msg := ("OK").data
         headers := [(("Date").data, S.dateStr),
                     (("Content-Length").data, natToStr contents.length),
                     (("Content-Type").data,
                       (S.mimeTable (splitextExt (S.resolvedPath p))).getD
                         ("application/octet-stream").data),
                     (("Connection").data, ("close").data)]
         body := [] }] := by
  have hpre := withinRoot_isPrefixOf hin
  unfold LocalServer.handle_request LocalServer.handle_head_request
    LocalServer.send_headers_only
  simp [hpre, hfile]

/-- C5 witness: `HEAD /a.txt` answers 200, `Content-Length: 2`, no body. -/
theorem c5_witness :
    demoServer.handle_request ("/a.txt").data ("HEAD").data =
      [{ version := ("HTTP/1.1").data, status := 200, msg := ("OK").data
         headers := [(("Date").data, demoServer.dateStr),
                     (("Content-Length").data, ("2").data),
                     (("Content-Type").data, ("text/plain").data),
                     (("Connection").data, ("close").data)]
         body := [] }] :=
  c5_head_file_ok demoServer (("/a.txt").data) [104, 105] (by decide) (by decide)

/-- C6 (amended): a GET request whose resolved path is a directory inside
the root (and whose decoded path is not `/favicon.ico`) is answered with
the directory listing; a HEAD request on such a directory is answered
with a 200 headers-only response with `Content-Length: 0` and an empty
body, which is not a listing (`c6_counterexample`). -/
theorem c6_directory_routing (S : LocalServer) (p : Str) (children : List Str)
    (hfav : ¬ replacePct20 p = ("/favicon.ico").data)
    (hdir : S.fs (S.resolvedPath p) = some (FSNode.dir children))
    (hin : withinRoot S.cwd (S.resolvedPath p) = true) :
    S.handle_request p ("GET").data
        = S.handle_directory_listing (S.resolvedPath p) (replacePct20 p)
    ∧ S.handle_request p ("HEAD").data
        = [S.send_headers_only
            [(("Date").data, S.dateStr),
             (("Content-Type").data,
               (S.mimeTable (splitextExt (S.resolvedPath p))).getD
                 ("application/octet-stream").data),
             (("Content-Length").data, natToStr 0),
             (("Connection").data, ("close").data)] 200 ("OK").data] := by
  have hpre := withinRoot_isPrefixOf hin
  constructor
  · have hmeth : ¬ (("GET").data = ("HEAD").data) := by decide
    unfold LocalServer.handle_request LocalServer.handle_get_request
    simp [hpre, hmeth, hfav, isdir, hdir]
  · unfold LocalServer.handle_request LocalServer.handle_head_request
    simp [hpre, hdir]

/-- C6 counterexample: `HEAD /b` resolves to the directory `/root/b`
inside the root, yet the response is not the directory listing: it is a
headers-only response (first header `Date`, empty body), while the
listing response starts with a `Content-Type` header and has a body. -/
theorem c6_counterexample :
    demoServer.fs (demoServer.resolvedPath ("/b").data) = some (FSNode.dir [])
    ∧ withinRoot demoServer.cwd (demoServer.resolvedPath ("/b").data) = true
    ∧ (demoServer.handle_request ("/b").data ("HEAD").data).map (fun r => r.body) = [[]]
    ∧ ¬ demoServer.handle_request ("/b").data ("HEAD").data
        = demoServer.handle_directory_listing
            (demoServer.resolvedPath ("/b").data) (("/b").data) := by
  refine ⟨by decide, by decide, by decide, ?_⟩
  intro heq
  have hh := congrArg (List.map (fun r => r.headers.head?)) heq
  exact absurd hh (by decide)

/-- C6 witness: `GET /b` is answered with the directory listing of
`/root/b`, and `HEAD /b` with the headers-only 200. -/
theorem c6_witness :
    demoServer.handle_request ("/b").data ("GET").data
        = demoServer.handle_directory_listing (("/root/b").data) (("/b").data)
    ∧ demoServer.handle_request ("/b").data ("HEAD").data
        = [demoServer.send_headers_only
            [(("Date").data, demoServer.dateStr),
             (("Content-Type").data, ("application/octet-stream").data),
             (("Content-Length").data, ("0").data),
             (("Connection").data, ("close").data)] 200 ("OK").data] :=
  c6_directory_routing demoServer (("/b").data) [] (by decide) (by decide) (by decide)

/-- C7: the listing of a directory is the opening template with the
request path interpolated, then a parent-directory link exactly when the
request path is not `/`, then one entry per immediate child in ascending
sorted order (a permutation of the children), then the closing template;
each entry links to `request_path.rstrip("/") + "/" + name`, with
directory links suffixed by `/`. -/
theorem c7_listing_structure (S : LocalServer) (dir_path request_path : Str)
    (children : List Str)
    (h : S.fs dir_path = some (FSNode.dir children)) :
    S.handle_directory_listing dir_path request_path
      = [S.send_response [(("Content-Type").data, ("text/html;charset=utf-8").data)]
          200 ("OK").data
          (dirHtmlA ++ request_path ++ dirHtmlB ++ request_path ++ dirHtmlC
            ++ (if request_path = ("/").data then [] else parentLi request_path)
            ++ ((pySort children).map (entryLi S.fs dir_path request_path)).flatten
            ++ dirHtmlD)]
    ∧ List.Sorted (fun a b : Str => a ≤ b) (pySort children)
    ∧ (pySort children).Perm children
    ∧ (∀ item, isdir S.fs (pyJoin dir_path item) = true →
        entryLi S.fs dir_path request_path item
          = ("<li>📁 <a href=\"").data ++ entryUrl request_path item
              ++ ("/\">").data ++ item ++ ("/</a></li>").data)
    ∧ (∀ item contents, S.fs (pyJoin dir_path item) = some (FSNode.file contents) →
        entryLi S.fs dir_path request_path item
          = ("<li>📄 <a href=\"").data ++ entryUrl request_path item ++ ("\">").data
              ++ item ++ ("</a> — <span style=\"color:#aaa;\">").data
              ++ format_file_size contents.length ++ ("</span></li>").data) := by
  refine ⟨?_, ?_, ?_, ?_, ?_⟩
  · unfold LocalServer.handle_directory_listing listingContent
    by_cases hrp : request_path = ("/").data
    · simp [h, hrp, foldl_append_map, List.append_assoc]
    · simp [h, hrp, foldl_append_map, List.append_assoc]
  · exact List.sorted_insertionSort _ children
  · exact List.perm_insertionSort _ children
  · intro item hd
    unfold entryLi
    simp [hd, entryUrl]
  · intro item contents hf
    have hd : isdir S.fs (pyJoin dir_path item) = false := by
      unfold isdir
      rw [hf]
    unfold entryLi
    simp [hd, hf, entryUrl]

/-- C7 witness: the children of the demo root, sorted and a permutation
of the original enumeration. -/
theorem c7_witness :
    List.Sorted (fun a b : Str => a ≤ b)
        (pySort [("a.txt").data, ("b").data, ("favicon.ico").data])
    ∧ (pySort [("a.txt").data, ("b").data, ("favicon.ico").data]).Perm
        [("a.txt").data, ("b").data, ("favicon.ico").data] :=
  ⟨(c7_listing_structure demoServer (("/root").data) (("/").data)
      [("a.txt").data, ("b").data, ("favicon.ico").data] (by decide)).2.1,
   (c7_listing_structure demoServer (("/root").data) (("/").data)
      [("a.txt").data, ("b").data, ("favicon.ico").data] (by decide)).2.2.1⟩

theorem formatOneDecimal_one (s : Nat) :
    formatOneDecimal s 1 = natToStr s ++ ['.', '0'] := by
  unfold formatOneDecimal
  simp [Nat.mod_one, Nat.div_one, Nat.mul_div_cancel, Nat.mul_mod_left]
  decide

/-- C8: `format_file_size` maps 0 to `"0 B"`, 1023 to `"1023.0 B"`, 1024
to `"1.0 KB"` and 1048576 to `"1.0 MB"`; in general it divides by 1024
into units B/KB/MB/GB with one decimal place, switching unit exactly at
the `size ≥ 1024` thresholds. -/
theorem c8_format_file_size_spec :
    format_file_size 0 = ("0 B").data
    ∧ format_file_size 1023 = ("1023.0 B").data
    ∧ format_file_size 1024 = ("1.0 KB").data
    ∧ format_file_size 1048576 = ("1.0 MB").data
    ∧ (∀ s, 0 < s → s < 1024 → format_file_size s = natToStr s ++ (".0 B").data)
    ∧ (∀ s, 1024 ≤ s → s < 1048576 →
        format_file_size s = formatOneDecimal s 1024 ++ (" KB").data)
    ∧ (∀ s, 1048576 ≤ s → s < 1073741824 →
        format_file_size s = formatOneDecimal s 1048576 ++ (" MB").data)
    ∧ (∀ s, 1073741824 ≤ s →
        format_file_size s = formatOneDecimal s 1073741824 ++ (" GB").data) := by
  have hp2 : (1024 : Nat) ^ 2 = 1048576 := by norm_num
  have hp3 : (1024 : Nat) ^ 3 = 1073741824 := by norm_num
  refine ⟨by decide, by decide, by decide, by decide, ?_, ?_, ?_, ?_⟩
  · intro s h0 h1
    unfold format_file_size
    rw [hp2, hp3, if_neg (by omega), if_neg (by omega), if_neg (by omega),
      if_neg (by omega)]
    have hx : ['.', '0'] ++ (" B").data = (".0 B").data := by decide
    rw [formatOneDecimal_one, List.append_assoc, hx]
  · intro s h1 h2
    unfold format_file_size
    rw [hp2, hp3, if_neg (by omega), if_neg (by omega), if_neg (by omega),
      if_pos h1]
  · intro s h1 h2
    unfold format_file_size
    rw [hp2, hp3, if_neg (by omega), if_neg (by omega), if_pos h1]
  · intro s h1
    unfold format_file_size
    rw [hp2, hp3, if_neg (by omega), if_pos h1]

/-- C8 witness: the KB clause applied at 2048 bytes. -/
theorem c8_witness : format_file_size 2048 = ("2.0 KB").data :=
  c8_format_file_size_spec.2.2.2.2.2.1 2048 (by decide) (by decide)

/-- C10: a GET request whose raw path is `/favicon.ico` is answered 404
for every filesystem — in particular even when `favicon.ico` exists in
the root (see `c10_witness`) — provided the resolved path passes the
containment test (it does for any normalized absolute root). -/
theorem c10_favicon_always_404 (S : LocalServer)
    (h : List.isPrefixOf S.cwd (S.resolvedPath ("/favicon.ico").data) = true) :
    S.handle_request ("/favicon.ico").data ("GET").data
      = [S.send_error_response 404 ("Not Found").data] := by
  have hmeth : ¬ (("GET").data = ("HEAD").data) := by decide
  have hrp : replacePct20 (("/favicon.ico").data) = ("/favicon.ico").data := by decide
  unfold LocalServer.handle_request LocalServer.handle_get_request
  simp [h, hmeth, hrp]

/-- C10 witness: the demo root does contain a regular file
`favicon.ico`, and `GET /favicon.ico` is still answered 404. -/
theorem c10_witness :
    demoServer.fs (demoServer.resolvedPath ("/favicon.ico").data)
        = some (FSNode.file [7, 8, 9])
    ∧ demoServer.handle_request ("/favicon.ico").data ("GET").data
        = [demoServer.send_error_response 404 ("Not Found").data] :=
  ⟨by decide, c10_favicon_always_404 demoServer (by decide)⟩

